import Mathlib

/-!
Verification of the payment-create operation of the payment-orchestration core
(`crates/router/src/core/payments/operations/payment_create.rs`).

The data model, the status engine, the idempotent persistence control flow of
`get_trackers`, the `update_trackers` status advance, and `validate_request`
are embedded as executable Lean definitions.  The store is represented by an
abstract record of operations (`Db σ`) in explicit state-passing style, which
mirrors the `dyn Db` trait object of the source; a concrete in-memory list
store (`storeDb`) modelled from the spec's store contract instantiates it for
concrete runs and for the two-request interleaving semantics.
-/

set_option autoImplicit false

deriving instance DecidableEq for Except

namespace Router

/-- Intent status enum (`storage::enums::IntentStatus`), states as listed in
the spec's status engine section. -/
inductive IntentStatus
  | RequiresPaymentMethod
  | RequiresConfirmation
  | Processing
  | Succeeded
  | Failed
  | RequiresCapture
  | Cancelled
  deriving DecidableEq, Repr

/-- Currency enum (`storage::enums::Currency`), a representative subset of the
known currencies. -/
inductive Currency
  | USD
  | EUR
  | GBP
  | INR
  deriving DecidableEq, Repr

/-- Card data (`api::CCard`). -/
structure CCard where
  card_number : String
  card_exp_month : String
  card_exp_year : String
  card_holder_name : String
  card_cvc : String
  deriving DecidableEq, Repr

/-- Payment-method data carried in the request (`api::PaymentMethod`). -/
inductive PaymentMethod
  | Card (card : CCard)
  deriving DecidableEq, Repr

/-- Payment id reference supplied by the client (`api::PaymentIdType`). -/
inductive PaymentIdType
  | PaymentIntentId (id : String)
  | ConnectorTransactionId (id : String)
  | PaymentAttemptId (id : String)
  deriving DecidableEq, Repr

/-- Modelled from the spec: `PaymentIdType::get_payment_intent_id` resolves a
client-supplied payment-id reference to an intent id; only the intent-id
variant resolves, other variants are a resolution failure (`none`). -/
def PaymentIdType.get_payment_intent_id : PaymentIdType → Option String
  | .PaymentIntentId id => some id
  | _ => none

/-- Payment method type (`storage::enums::PaymentMethodType`). -/
inductive PaymentMethodType
  | Card
  | Wallet
  deriving DecidableEq, Repr

/-- Capture method (`storage::enums::CaptureMethod`). -/
inductive CaptureMethod
  | Automatic
  | Manual
  deriving DecidableEq, Repr

/-- Authentication type (`storage::enums::AuthenticationType`). -/
inductive AuthenticationType
  | ThreeDs
  | NoThreeDs
  deriving DecidableEq, Repr

/-- Future usage flag (`api::FutureUsage`). -/
inductive FutureUsage
  | OnSession
  | OffSession
  deriving DecidableEq, Repr

/-- Mandate transaction classification (`api::MandateTxnType`). -/
inductive MandateTxnType
  | NewMandateTxn
  | RecurringMandateTxn
  deriving DecidableEq, Repr

/-- A stored address as returned by the address repository, carrying its
identifier. -/
structure AddressRecord where
  address_id : String
  deriving DecidableEq, Repr

/-- The merchant's payment request (`api::PaymentsRequest`), with the fields
read by the payment-create operation. -/
structure PaymentsRequest where
  payment_id : Option PaymentIdType := none
  merchant_id : Option String := none
  amount : Option Int := none
  currency : Option String := none
  capture_method : Option CaptureMethod := none
  amount_to_capture : Option Int := none
  capture_on : Option Nat := none
  confirm : Option Bool := none
  customer_id : Option String := none
  email : Option String := none
  name : Option String := none
  phone : Option String := none
  phone_country_code : Option String := none
  description : Option String := none
  return_url : Option String := none
  setup_future_usage : Option FutureUsage := none
  off_session : Option Bool := none
  authentication_type : Option AuthenticationType := none
  payment_method_data : Option PaymentMethod := none
  payment_method : Option PaymentMethodType := none
  statement_descriptor_name : Option String := none
  statement_descriptor_suffix : Option String := none
  mandate_id : Option String := none
  mandate_data : Option String := none
  client_secret : Option String := none
  payment_token : Option String := none
  deriving DecidableEq, Repr

/-- A payment attempt row (`storage::PaymentAttempt`); the insert draft
(`storage::PaymentAttemptNew`) carries the same fields, so one type stands for
both.  The attempt status mirrors the intent status at creation, so the same
enum is used. -/
structure PaymentAttempt where
  payment_id : String
  merchant_id : String
  txn_id : String
  status : IntentStatus
  amount : Int
  currency : Option Currency
  connector : String
  payment_method : Option PaymentMethodType
  capture_method : Option CaptureMethod
  capture_on : Option Nat
  confirm : Bool
  created_at : Option Nat
  modified_at : Option Nat
  last_synced : Option Nat
  authentication_type : Option AuthenticationType
  deriving DecidableEq, Repr

/-- A payment intent row (`storage::PaymentIntent`); the insert draft
(`storage::PaymentIntentNew`) carries the same fields.  `customer_id` is left
by `Default::default()` at creation time. -/
structure PaymentIntent where
  payment_id : String
  merchant_id : String
  status : IntentStatus
  amount : Int
  currency : Option Currency
  connector_id : Option String
  description : Option String
  created_at : Option Nat
  modified_at : Option Nat
  last_synced : Option Nat
  client_secret : Option String
  setup_future_usage : Option FutureUsage
  off_session : Option Bool
  return_url : Option String
  shipping_address_id : Option String
  billing_address_id : Option String
  statement_descriptor_name : Option String
  statement_descriptor_suffix : Option String
  customer_id : Option String := none
  deriving DecidableEq, Repr

/-- A connector response row (`storage::ConnectorResponse` /
`storage::ConnectorResponseNew`). -/
structure ConnectorResponse where
  payment_id : String
  merchant_id : String
  txn_id : String
  created_at : Option Nat
  modified_at : Option Nat
  connector_name : String
  connector_transaction_id : Option String
  authentication_data : Option String
  encoded_data : Option String
  deriving DecidableEq, Repr

/-- Database error kinds distinguished by the source
(`errors::DatabaseError`). -/
inductive DatabaseError
  | UniqueViolation
  | NotFound
  | Others
  deriving DecidableEq, Repr

/-- Storage-layer error (`errors::StorageError`). -/
inductive StorageError
  | databaseError (err : DatabaseError)
  | other
  deriving DecidableEq, Repr

/-- API-level error responses (`errors::ApiErrorResponse`) reachable from the
payment-create operation. -/
inductive ApiErrorResponse
  | PaymentNotFound
  | InternalServerError
  | MerchantAccountNotFound
  | MissingRequiredField (field_name : String)
  | InvalidDataFormat (field_name : String) (expected_format : String)
  | InvalidRequestData (message : String)
  deriving DecidableEq, Repr

/-- An error as surfaced by the operation: the API error response plus the
message attached with `attach_printable`, when any. -/
structure RouterErr where
  api : ApiErrorResponse
  printable : Option String := none
  deriving DecidableEq, Repr

/-- Modelled from the spec: `StorageErrorExt::to_not_found_response` (helper
crate code not under src/) maps a not-found storage error to the supplied API
error and any other storage error to an internal server error. -/
def to_not_found_response (err : StorageError) (not_found : ApiErrorResponse) : RouterErr :=
  match err with
  | .databaseError .NotFound => ⟨not_found, none⟩
  | _ => ⟨.InternalServerError, none⟩

/-- Customer details echoed from the request (`payments::CustomerDetails`). -/
structure CustomerDetails where
  customer_id : Option String
  name : Option String
  email : Option String
  phone : Option String
  phone_country_code : Option String
  deriving DecidableEq, Repr

/-- Modelled from the spec: `helpers::payment_intent_status_fsm` (helper crate
code not under src/), the creation-time status rule: payment-method data
absent gives RequiresPaymentMethod; present without `confirm = true` gives
RequiresConfirmation; present with `confirm = true` gives Processing. -/
def payment_intent_status_fsm (payment_method_data : Option PaymentMethod)
    (confirm : Option Bool) : IntentStatus :=
  match payment_method_data with
  | some _ =>
    match confirm with
    | some true => .Processing
    | _ => .RequiresConfirmation
  | none => .RequiresPaymentMethod

/-- Modelled from the spec: `helpers::payment_attempt_status_fsm` (helper
crate code not under src/); the attempt status mirrors the intent status at
creation, derived the same way. -/
def payment_attempt_status_fsm (payment_method_data : Option PaymentMethod)
    (confirm : Option Bool) : IntentStatus :=
  payment_intent_status_fsm payment_method_data confirm

/-- The intent-status transition computed inside
`PaymentCreate::update_trackers` (payment_create.rs lines 192-205) from the
current status, the presence of payment-method data, and the confirm flag. -/
def payment_create_update_status (current : IntentStatus)
    (payment_method_data : Option PaymentMethod) (confirm : Option Bool) :
    Option IntentStatus :=
  match current with
  | .RequiresPaymentMethod =>
    match payment_method_data with
    | some _ => some .RequiresConfirmation
    | _ => none
  | .RequiresConfirmation =>
    match confirm with
    | some true => some .Processing
    | _ => none
  | _ => none

/-- The transition rule exactly as the spec words it, for comparison with the
source's `payment_create_update_status`. -/
def claimed_update_status (current : IntentStatus)
    (payment_method_data : Option PaymentMethod) (confirm : Option Bool) :
    Option IntentStatus :=
  if current = .RequiresPaymentMethod then
    if payment_method_data.isSome then some .RequiresConfirmation else none
  else if current = .RequiresConfirmation then
    if confirm = some true then some .Processing else none
  else none

/-- Applying the update rule repeatedly from a status until no further
transition applies; from RequiresPaymentMethod at most two applications are
possible, so two suffice. -/
def apply_update_to_fixpoint (current : IntentStatus)
    (payment_method_data : Option PaymentMethod) (confirm : Option Bool) :
    IntentStatus :=
  match payment_create_update_status current payment_method_data confirm with
  | none => current
  | some s1 =>
    match payment_create_update_status s1 payment_method_data confirm with
    | none => s1
    | some s2 => s2

/-- `PaymentCreate::make_payment_attempt` (payment_create.rs lines 283-313).
The fresh transaction id (`Uuid::new_v4`) and the current time
(`date_time::now`) are produced by external collaborators and passed in as
`txn_id` and `now`. -/
def make_payment_attempt (payment_id merchant_id : String) (connector : String)
    (money : Int × Currency) (payment_method : Option PaymentMethodType)
    (request : PaymentsRequest) (txn_id : String) (now : Nat) : PaymentAttempt :=
  { payment_id := payment_id
    merchant_id := merchant_id
    txn_id := txn_id
    status := payment_attempt_status_fsm request.payment_method_data request.confirm
    amount := money.1
    currency := some money.2
    connector := connector
    payment_method := payment_method
    capture_method := request.capture_method
    capture_on := request.capture_on
    confirm := request.confirm.getD false
    created_at := some now
    modified_at := some now
    last_synced := some now
    authentication_type := request.authentication_type }

/-- `PaymentCreate::make_payment_intent` (payment_create.rs lines 316-352).
The current time and the generated client secret are produced by external
collaborators and passed in as `now` and `client_secret`. -/
def make_payment_intent (payment_id merchant_id connector_id : String)
    (money : Int × Currency) (request : PaymentsRequest)
    (shipping_address_id billing_address_id : Option String)
    (now : Nat) (client_secret : String) : PaymentIntent :=
  { payment_id := payment_id
    merchant_id := merchant_id
    status := payment_intent_status_fsm request.payment_method_data request.confirm
    amount := money.1
    currency := some money.2
    connector_id := some connector_id
    description := request.description
    created_at := some now
    modified_at := some now
    last_synced := some now
    client_secret := some client_secret
    setup_future_usage := request.setup_future_usage
    off_session := request.off_session
    return_url := request.return_url
    shipping_address_id := shipping_address_id
    billing_address_id := billing_address_id
    statement_descriptor_name := request.statement_descriptor_name
    statement_descriptor_suffix := request.statement_descriptor_suffix
    customer_id := none }

/-- `PaymentCreate::make_connector_response` (payment_create.rs lines
355-369): the connector-response draft copies its identifiers, including the
transaction id, from the payment attempt. -/
def make_connector_response (payment_attempt : PaymentAttempt) : ConnectorResponse :=
  { payment_id := payment_attempt.payment_id
    merchant_id := payment_attempt.merchant_id
    txn_id := payment_attempt.txn_id
    created_at := payment_attempt.created_at
    modified_at := payment_attempt.modified_at
    connector_name := payment_attempt.connector
    connector_transaction_id := none
    authentication_data := none
    encoded_data := none }

/-- Modelled from the spec: currency parsing (`ParseEnum::parse_enum`, helper
crate code not under src/): a currency string outside the known set, or an
absent currency, fails with the invalid-currency error. -/
def parse_currency : Option String → Except RouterErr Currency
  | some "USD" => .ok .USD
  | some "EUR" => .ok .EUR
  | some "GBP" => .ok .GBP
  | some "INR" => .ok .INR
  | _ => .error ⟨.InvalidRequestData "invalid currency", none⟩

/-- Modelled from the spec: `OptionExt::get_required_value` (helper crate code
not under src/): an absent required field fails with a missing-required-field
error naming the field. -/
def get_required_value {α : Type} (field : String) : Option α → Except RouterErr α
  | some v => .ok v
  | none => .error ⟨.MissingRequiredField field, none⟩

/-- `payments_create_request_validation` (payment_create.rs lines 372-385):
parse the currency, then require the amount. -/
def payments_create_request_validation (req : PaymentsRequest) :
    Except RouterErr (Int × Currency) :=
  match parse_currency req.currency with
  | .error e => .error e
  | .ok currency =>
    match get_required_value "amount" req.amount with
    | .error e => .error e
    | .ok amount => .ok (amount, currency)

/-- The partial update used by `update_trackers`
(`storage::PaymentIntentUpdate::ReturnUrlUpdate`). -/
inductive PaymentIntentUpdate
  | ReturnUrlUpdate (return_url : Option String) (status : Option IntentStatus)
      (customer_id : Option String) (shipping_address_id : Option String)
      (billing_address_id : Option String)
  deriving DecidableEq, Repr

/-- The abstract store contract (`db::Db`) consumed by the operation, in
explicit state-passing style over a store state type `σ`.  Each call reports
success, a distinguished unique-violation error, a distinguished not-found
error, or a generic failure. -/
structure Db (σ : Type) where
  insert_payment_attempt : PaymentAttempt → σ → Except StorageError PaymentAttempt × σ
  find_payment_attempt_by_payment_id_merchant_id :
    String → String → σ → Except StorageError PaymentAttempt × σ
  insert_payment_intent : PaymentIntent → σ → Except StorageError PaymentIntent × σ
  find_payment_intent_by_payment_id_merchant_id :
    String → String → σ → Except StorageError PaymentIntent × σ
  insert_connector_response : ConnectorResponse → σ → Except StorageError ConnectorResponse × σ
  update_payment_intent :
    PaymentIntent → PaymentIntentUpdate → σ → Except StorageError PaymentIntent × σ

/-- Outcome of `get_trackers` on success: the next operation, the aggregate,
and the optional customer details. -/
inductive NextOperation
  | SelfOp
  | ConfirmOp
  | OperationForStatus (status : IntentStatus)
  deriving DecidableEq, Repr

/-- Modelled from the spec: `payments::if_not_create_change_operation` (crate
code not under src/): on a resume, select the operation appropriate to the
intent's current status (the concrete status-to-operation mapping is left
abstract, as the spec leaves it undefined); otherwise keep the create
operation itself. -/
def if_not_create_change_operation (is_update : Bool) (status : IntentStatus) :
    NextOperation :=
  if is_update then .OperationForStatus status else .SelfOp

/-- Modelled from the spec: `payments::is_confirm` (crate code not under
src/): when `confirm = true` hand over to the confirm/process operation, else
stay on the operation itself. -/
def is_confirm (confirm : Option Bool) : NextOperation :=
  if confirm = some true then .ConfirmOp else .SelfOp

/-- Resolved shipping/billing addresses (`payments::PaymentAddress`). -/
structure PaymentAddress where
  shipping : Option AddressRecord
  billing : Option AddressRecord
  deriving DecidableEq, Repr

/-- The in-memory working aggregate (`payments::PaymentData`), as assembled by
`get_trackers` (payment_create.rs lines 149-167).  The `flow` phantom marker
is omitted. -/
structure PaymentData where
  payment_intent : PaymentIntent
  payment_attempt : PaymentAttempt
  currency : Currency
  amount : Int
  mandate_id : Option String
  setup_mandate : Option String
  token : Option String
  address : PaymentAddress
  confirm : Option Bool
  payment_method_data : Option PaymentMethod
  refunds : List Unit
  force_sync : Option Bool
  connector_response : ConnectorResponse
  deriving DecidableEq, Repr

/-- Results of the external collaborators consulted by `get_trackers` before
the persistence steps: the token/payment-method-type/mandate extraction
(`helpers::get_token_pm_type_mandate_details`), the resolved shipping and
billing addresses (`helpers::get_address_for_payment_request`), the fresh
transaction id, the current time, and the generated client secret. -/
structure ExternalInputs where
  token : Option String
  payment_method_type : Option PaymentMethodType
  setup_mandate : Option String
  shipping_address : Option AddressRecord
  billing_address : Option AddressRecord
  txn_id : String
  now : Nat
  client_secret : String
  deriving DecidableEq, Repr

/-- The payment-attempt draft that `get_trackers` inserts, built by
`make_payment_attempt` from the resolved inputs. -/
def create_attempt_draft (pid merchant_id connector : String)
    (money : Int × Currency) (request : PaymentsRequest) (ext : ExternalInputs) :
    PaymentAttempt :=
  make_payment_attempt pid merchant_id connector money ext.payment_method_type
    request ext.txn_id ext.now

/-- The payment-intent draft that `get_trackers` inserts, built by
`make_payment_intent` from the resolved inputs. -/
def create_intent_draft (pid merchant_id connector : String)
    (money : Int × Currency) (request : PaymentsRequest) (ext : ExternalInputs) :
    PaymentIntent :=
  make_payment_intent pid merchant_id connector money request
    (ext.shipping_address.map (fun a => a.address_id))
    (ext.billing_address.map (fun a => a.address_id))
    ext.now ext.client_secret

/-- The attempt-persistence step of `get_trackers` (payment_create.rs lines
73-97): insert the attempt draft; on a unique violation, mark the run as an
update and fetch the existing attempt by (payment_id, merchant_id), turning a
not-found fetch result into PaymentNotFound; any other insert error is an
internal server error.  The returned Bool is the `is_update` contribution. -/
def attempt_step {σ : Type} (db : Db σ) (draft : PaymentAttempt)
    (pid merchant_id : String) (s : σ) :
    Except RouterErr (PaymentAttempt × Bool) × σ :=
  match db.insert_payment_attempt draft s with
  | (.ok payment_attempt, s1) => (.ok (payment_attempt, false), s1)
  | (.error err, s1) =>
    match err with
    | .databaseError .UniqueViolation =>
      match db.find_payment_attempt_by_payment_id_merchant_id pid merchant_id s1 with
      | (.ok payment_attempt, s2) => (.ok (payment_attempt, true), s2)
      | (.error err2, s2) => (.error (to_not_found_response err2 .PaymentNotFound), s2)
    | _ => (.error ⟨.InternalServerError, none⟩, s1)

/-- The intent-persistence step of `get_trackers` (payment_create.rs lines
98-123), with the same unique-violation-then-fetch pattern as the attempt
step. -/
def intent_step {σ : Type} (db : Db σ) (draft : PaymentIntent)
    (pid merchant_id : String) (s : σ) :
    Except RouterErr (PaymentIntent × Bool) × σ :=
  match db.insert_payment_intent draft s with
  | (.ok payment_intent, s1) => (.ok (payment_intent, false), s1)
  | (.error err, s1) =>
    match err with
    | .databaseError .UniqueViolation =>
      match db.find_payment_intent_by_payment_id_merchant_id pid merchant_id s1 with
      | (.ok payment_intent, s2) => (.ok (payment_intent, true), s2)
      | (.error err2, s2) => (.error (to_not_found_response err2 .PaymentNotFound), s2)
    | _ => (.error ⟨.InternalServerError, none⟩, s1)

/-- The connector-response step of `get_trackers` (payment_create.rs lines
125-140): insert the connector-response draft; a unique violation is fatal
with an attached duplicate message, and any other error is fatal with a
generic insertion message. -/
def connector_step {σ : Type} (db : Db σ) (draft : ConnectorResponse) (s : σ) :
    Except RouterErr ConnectorResponse × σ :=
  match db.insert_connector_response draft s with
  | (.ok connector_resp, s1) => (.ok connector_resp, s1)
  | (.error err, s1) =>
    match err with
    | .databaseError .UniqueViolation =>
      (.error ⟨.InternalServerError, some "Duplicate connector response in the database"⟩, s1)
    | _ =>
      (.error ⟨.InternalServerError, some "Error occured when inserting connector response"⟩, s1)

/-- `PaymentCreate::get_trackers` (payment_create.rs lines 38-176): validate
amount/currency, resolve the payment id, run the attempt, intent, and
connector-response persistence steps, then select the next operation from the
accumulated `is_update` flag and assemble the aggregate and the echoed
customer details. -/
def get_trackers {σ : Type} (db : Db σ) (payment_id : PaymentIdType)
    (merchant_id connector : String) (request : PaymentsRequest)
    (ext : ExternalInputs) (s : σ) :
    Except RouterErr (NextOperation × PaymentData × Option CustomerDetails) × σ :=
  match payments_create_request_validation request with
  | .error e => (.error e, s)
  | .ok money =>
    match payment_id.get_payment_intent_id with
    | none => (.error ⟨.PaymentNotFound, none⟩, s)
    | some pid =>
      match attempt_step db (create_attempt_draft pid merchant_id connector money request ext)
          pid merchant_id s with
      | (.error e, s1) => (.error e, s1)
      | (.ok (payment_attempt, au), s1) =>
        match intent_step db (create_intent_draft pid merchant_id connector money request ext)
            pid merchant_id s1 with
        | (.error e, s2) => (.error e, s2)
        | (.ok (payment_intent, iu), s2) =>
          match connector_step db (make_connector_response payment_attempt) s2 with
          | (.error e, s3) => (.error e, s3)
          | (.ok connector_response, s3) =>
            (.ok (if_not_create_change_operation (au || iu) payment_intent.status,
              { payment_intent := payment_intent
                payment_attempt := payment_attempt
                currency := money.2
                amount := money.1
                mandate_id := request.mandate_id
                setup_mandate := ext.setup_mandate
                token := ext.token
                address := ⟨ext.shipping_address, ext.billing_address⟩
                confirm := request.confirm
                payment_method_data := request.payment_method_data
                refunds := []
                force_sync := none
                connector_response := connector_response },
              some ⟨request.customer_id, request.name, request.email,
                request.phone, request.phone_country_code⟩), s3)

/-- `PaymentCreate::update_trackers` (payment_create.rs lines 182-230):
compute the status transition, persist it through a `ReturnUrlUpdate` carrying
the intent's own customer id, turn a not-found update result into
PaymentNotFound, and select the next operation from the confirm flag. -/
def update_trackers {σ : Type} (db : Db σ) (payment_data : PaymentData) (s : σ) :
    Except RouterErr (NextOperation × PaymentData) × σ :=
  let status := payment_create_update_status payment_data.payment_intent.status
    payment_data.payment_method_data payment_data.confirm
  let customer_id := payment_data.payment_intent.customer_id
  match db.update_payment_intent payment_data.payment_intent
      (.ReturnUrlUpdate none status customer_id none none) s with
  | (.error err, s1) => (.error (to_not_found_response err .PaymentNotFound), s1)
  | (.ok payment_intent, s1) =>
    (.ok (is_confirm payment_data.confirm,
      { payment_data with payment_intent := payment_intent }), s1)

/-- Merchant account (`storage::MerchantAccount`), reduced to the
authenticated merchant id consulted by `validate_request`. -/
structure MerchantAccount where
  merchant_id : String
  deriving DecidableEq, Repr

/-- Modelled from the spec: `helpers::validate_merchant_id` (helper crate code
not under src/): the merchant id in the request, when present, must match the
authenticated merchant. -/
def validate_merchant_id (merchant_id : String) (request_merchant_id : Option String) : Bool :=
  match request_merchant_id with
  | none => true
  | some m => m == merchant_id

/-- Modelled from the spec:
`helpers::validate_request_amount_and_amount_to_capture` (helper crate code
not under src/): `amount_to_capture`, when both are present, must not exceed
`amount`. -/
def validate_request_amount_and_amount_to_capture (amount : Option Int)
    (amount_to_capture : Option Int) : Bool :=
  match amount, amount_to_capture with
  | some a, some c => if c ≤ a then true else false
  | _, _ => true

/-- Modelled from the spec: `helpers::validate_mandate` (helper crate code not
under src/), the mandate-type classification from request fields: mandate data
classifies as a new mandate transaction, a mandate id as a recurring one. -/
def validate_mandate (req : PaymentsRequest) : Option MandateTxnType :=
  if req.mandate_data.isSome then some .NewMandateTxn
  else if req.mandate_id.isSome then some .RecurringMandateTxn
  else none

/-- Modelled from the spec: `core_utils::get_or_generate_id` (helper crate
code not under src/): keep the client-supplied id when present, otherwise use
the fresh collision-resistant id produced by the id generator. -/
def get_or_generate_id (given : Option String) (fresh : String) : String :=
  given.getD fresh

/-- The step of `validate_request` that resolves the client-supplied payment
id reference (payment_create.rs lines 245-252). -/
def resolve_given_payment_id (pid : Option PaymentIdType) :
    Except RouterErr (Option String) :=
  match pid with
  | some idt =>
    match idt.get_payment_intent_id with
    | some id => .ok (some id)
    | none => .error ⟨.PaymentNotFound, none⟩
  | none => .ok none

/-- `PaymentCreate::validate_request` (payment_create.rs lines 235-278):
resolve the payment id reference, check the merchant id, require the amount,
check `amount_to_capture` against the amount, classify the mandate, and
produce the resolved payment id.  The fresh id from the id generator is passed
in as `fresh_id`. -/
def validate_request (request : PaymentsRequest) (merchant_account : MerchantAccount)
    (fresh_id : String) :
    Except RouterErr (NextOperation × String × PaymentIdType × Option MandateTxnType) :=
  match resolve_given_payment_id request.payment_id with
  | .error e => .error e
  | .ok given_payment_id =>
    if validate_merchant_id merchant_account.merchant_id request.merchant_id then
      match get_required_value "amount" request.amount with
      | .error e => .error e
      | .ok amount =>
        if validate_request_amount_and_amount_to_capture (some amount)
            request.amount_to_capture then
          .ok (.SelfOp, merchant_account.merchant_id,
            .PaymentIntentId (get_or_generate_id given_payment_id fresh_id),
            validate_mandate request)
        else
          .error ⟨.InvalidDataFormat "amount_to_capture"
            "amount_to_capture lesser than amount", none⟩
    else
      .error ⟨.MerchantAccountNotFound, none⟩

/-- Modelled from the spec: the store's application of a `ReturnUrlUpdate`
partial update to a stored intent row (`updateIntent(intent, partialUpdate)`,
store code not under src/): only the carried fields change, and a field
carried as `none` is left untouched. -/
def apply_payment_intent_update (intent : PaymentIntent)
    (update : PaymentIntentUpdate) : PaymentIntent :=
  match update with
  | .ReturnUrlUpdate return_url status customer_id shipping_address_id billing_address_id =>
    { intent with
      status := status.getD intent.status
      return_url := return_url.orElse fun _ => intent.return_url
      customer_id := customer_id.orElse fun _ => intent.customer_id
      shipping_address_id := shipping_address_id.orElse fun _ => intent.shipping_address_id
      billing_address_id := billing_address_id.orElse fun _ => intent.billing_address_id }

/-- The in-memory store state: the three tables as row lists. -/
structure Store where
  attempts : List PaymentAttempt
  intents : List PaymentIntent
  responses : List ConnectorResponse
  deriving DecidableEq, Repr

/-- The empty store. -/
def emptyStore : Store := ⟨[], [], []⟩

/-- Key check for the attempt table's unique index on
(payment_id, merchant_id). -/
def attemptKeyMatches (payment_id merchant_id : String) (a : PaymentAttempt) : Bool :=
  a.payment_id == payment_id && a.merchant_id == merchant_id

/-- Key check for the intent table's unique index on
(payment_id, merchant_id). -/
def intentKeyMatches (payment_id merchant_id : String) (i : PaymentIntent) : Bool :=
  i.payment_id == payment_id && i.merchant_id == merchant_id

/-- Key check for the connector-response table's unique index on the
transaction id. -/
def responseKeyMatches (txn_id : String) (r : ConnectorResponse) : Bool :=
  r.txn_id == txn_id

/-- Modelled from the spec: the reference store (store engine not under src/).
Inserts enforce the unique indexes atomically and report a distinguishable
unique-violation error; finds report a distinguishable not-found error; the
conditional intent update applies `apply_payment_intent_update` to the
in-memory intent and stores it, or reports not-found when no row has the
key. -/
def storeDb : Db Store where
  insert_payment_attempt := fun a s =>
    if s.attempts.any (attemptKeyMatches a.payment_id a.merchant_id) then
      (.error (.databaseError .UniqueViolation), s)
    else
      (.ok a, { s with attempts := s.attempts ++ [a] })
  find_payment_attempt_by_payment_id_merchant_id := fun pid mid s =>
    match s.attempts.find? (attemptKeyMatches pid mid) with
    | some a => (.ok a, s)
    | none => (.error (.databaseError .NotFound), s)
  insert_payment_intent := fun i s =>
    if s.intents.any (intentKeyMatches i.payment_id i.merchant_id) then
      (.error (.databaseError .UniqueViolation), s)
    else
      (.ok i, { s with intents := s.intents ++ [i] })
  find_payment_intent_by_payment_id_merchant_id := fun pid mid s =>
    match s.intents.find? (intentKeyMatches pid mid) with
    | some i => (.ok i, s)
    | none => (.error (.databaseError .NotFound), s)
  insert_connector_response := fun c s =>
    if s.responses.any (responseKeyMatches c.txn_id) then
      (.error (.databaseError .UniqueViolation), s)
    else
      (.ok c, { s with responses := s.responses ++ [c] })
  update_payment_intent := fun i u s =>
    if s.intents.any (intentKeyMatches i.payment_id i.merchant_id) then
      let updated := apply_payment_intent_update i u
      let replaced := s.intents.map fun r =>
        if intentKeyMatches i.payment_id i.merchant_id r then updated else r
      (.ok updated, { s with intents := replaced })
    else
      (.error (.databaseError .NotFound), s)

/-- A store whose calls return fixed, predetermined outcomes, used to exercise
every branch of the persistence control flow; any combination of outcomes the
abstract store contract permits is representable. -/
def oracleDb (aIns aFind : Except StorageError PaymentAttempt)
    (iIns iFind : Except StorageError PaymentIntent)
    (cIns : Except StorageError ConnectorResponse) : Db Unit where
  insert_payment_attempt := fun _ _ => (aIns, ())
  find_payment_attempt_by_payment_id_merchant_id := fun _ _ _ => (aFind, ())
  insert_payment_intent := fun _ _ => (iIns, ())
  find_payment_intent_by_payment_id_merchant_id := fun _ _ _ => (iFind, ())
  insert_connector_response := fun _ _ => (cIns, ())
  update_payment_intent := fun i u _ => (.ok (apply_payment_intent_update i u), ())

/-- Program counter for one request executing the persistence section of
`get_trackers`, with one machine step per store access (every store access is
a suspension point, so concurrent requests interleave at exactly these
points): attempt insert, attempt fetch after a unique violation, intent
insert, intent fetch after a unique violation, connector-response insert. -/
inductive Pc
  | insA
  | findA
  | insI
  | findI
  | insC
  | doneOk
  | doneErr
  deriving DecidableEq, Repr

/-- Local state of one request: its program counter, the attempt row it holds
(inserted or fetched), and its accumulated `is_update` flag. -/
structure ProcState where
  pc : Pc
  attempt : Option PaymentAttempt
  is_update : Bool
  deriving DecidableEq, Repr

/-- A request that has not yet performed its first store access. -/
def initProc : ProcState := ⟨.insA, none, false⟩

/-- One atomic store access of the persistence section of `get_trackers`
(payment_create.rs lines 73-140) against the reference store, for the request
whose drafts are `aDraft` and `iDraft`: the same insert / unique-violation /
fetch / fatal-error control flow as `attempt_step`, `intent_step` and
`connector_step`, split at the store-access boundaries. -/
def procStep (aDraft : PaymentAttempt) (iDraft : PaymentIntent)
    (p : ProcState) (s : Store) : ProcState × Store :=
  match p.pc with
  | .insA =>
    match storeDb.insert_payment_attempt aDraft s with
    | (.ok a, s1) => ({ p with pc := .insI, attempt := some a }, s1)
    | (.error (.databaseError .UniqueViolation), s1) =>
      ({ p with pc := .findA, is_update := true }, s1)
    | (.error _, s1) => ({ p with pc := .doneErr }, s1)
  | .findA =>
    match storeDb.find_payment_attempt_by_payment_id_merchant_id
        aDraft.payment_id aDraft.merchant_id s with
    | (.ok a, s1) => ({ p with pc := .insI, attempt := some a }, s1)
    | (.error _, s1) => ({ p with pc := .doneErr }, s1)
  | .insI =>
    match storeDb.insert_payment_intent iDraft s with
    | (.ok _, s1) => ({ p with pc := .insC }, s1)
    | (.error (.databaseError .UniqueViolation), s1) =>
      ({ p with pc := .findI, is_update := true }, s1)
    | (.error _, s1) => ({ p with pc := .doneErr }, s1)
  | .findI =>
    match storeDb.find_payment_intent_by_payment_id_merchant_id
        iDraft.payment_id iDraft.merchant_id s with
    | (.ok _, s1) => ({ p with pc := .insC }, s1)
    | (.error _, s1) => ({ p with pc := .doneErr }, s1)
  | .insC =>
    match p.attempt with
    | some a =>
      match storeDb.insert_connector_response (make_connector_response a) s with
      | (.ok _, s1) => ({ p with pc := .doneOk }, s1)
      | (.error _, s1) => ({ p with pc := .doneErr }, s1)
    | none => ({ p with pc := .doneErr }, s)
  | .doneOk => (p, s)
  | .doneErr => (p, s)

/-- Global state of two concurrent requests sharing the store. -/
structure Global where
  procA : ProcState
  procB : ProcState
  store : Store
  deriving DecidableEq, Repr

/-- One scheduling choice: `true` steps the first request, `false` the
second; a finished request leaves the state unchanged. -/
def schedStep (aD1 : PaymentAttempt) (iD1 : PaymentIntent)
    (aD2 : PaymentAttempt) (iD2 : PaymentIntent) (g : Global) (choice : Bool) :
    Global :=
  if choice then
    let r := procStep aD1 iD1 g.procA g.store
    { g with procA := r.1, store := r.2 }
  else
    let r := procStep aD2 iD2 g.procB g.store
    { g with procB := r.1, store := r.2 }

/-- Run an arbitrary interleaving of the two requests. -/
def runSched (aD1 : PaymentAttempt) (iD1 : PaymentIntent)
    (aD2 : PaymentAttempt) (iD2 : PaymentIntent) :
    List Bool → Global → Global
  | [], g => g
  | c :: rest, g => runSched aD1 iD1 aD2 iD2 rest (schedStep aD1 iD1 aD2 iD2 g c)

/-- A request has completed, successfully or with an error. -/
def finished (p : ProcState) : Prop :=
  p.pc = .doneOk ∨ p.pc = .doneErr

/-- A sample card payload, used for concrete runs. -/
def sampleCard : CCard :=
  ⟨"4242424242424242", "10", "35", "Arun Raj", "123"⟩

/-- Request used by the C10 witness: all five customer fields absent. -/
def custReq : PaymentsRequest :=
  { amount := some 6540, currency := some "USD" }

/-- External inputs used by the C10 witness. -/
def custExt : ExternalInputs :=
  ⟨none, none, none, none, none, "txn_w10", 0, "secret_w10"⟩

/-- The resume-routing contract of a successful `get_trackers` run: the run
decomposes into its persistence steps; the returned next operation is the one
selected from the fetched intent's current status exactly when at least one of
the attempt or intent inserts resolved via the unique-violation-then-fetch
resume path, and is the create operation itself when neither did. -/
def GetTrackersResumeSpec {σ : Type} (db : Db σ) (payment_id : PaymentIdType)
    (merchant_id connector : String) (request : PaymentsRequest)
    (ext : ExternalInputs) (s : σ) (op : NextOperation) (pd : PaymentData) : Prop :=
  ∃ money pid au iu s1 s2,
    payments_create_request_validation request = .ok money ∧
    payment_id.get_payment_intent_id = some pid ∧
    attempt_step db (create_attempt_draft pid merchant_id connector money request ext)
      pid merchant_id s = (.ok (pd.payment_attempt, au), s1) ∧
    intent_step db (create_intent_draft pid merchant_id connector money request ext)
      pid merchant_id s1 = (.ok (pd.payment_intent, iu), s2) ∧
    op = if_not_create_change_operation (au || iu) pd.payment_intent.status ∧
    ((au || iu) = true → op = .OperationForStatus pd.payment_intent.status ∧ op ≠ .SelfOp) ∧
    ((au || iu) = false → op = .SelfOp) ∧
    (au = true → ∃ sm,
      db.insert_payment_attempt
        (create_attempt_draft pid merchant_id connector money request ext) s =
          (.error (.databaseError .UniqueViolation), sm) ∧
      db.find_payment_attempt_by_payment_id_merchant_id pid merchant_id sm =
        (.ok pd.payment_attempt, s1)) ∧
    (au = false → db.insert_payment_attempt
      (create_attempt_draft pid merchant_id connector money request ext) s =
        (.ok pd.payment_attempt, s1)) ∧
    (iu = true → ∃ sm,
      db.insert_payment_intent
        (create_intent_draft pid merchant_id connector money request ext) s1 =
          (.error (.databaseError .UniqueViolation), sm) ∧
      db.find_payment_intent_by_payment_id_merchant_id pid merchant_id sm =
        (.ok pd.payment_intent, s2)) ∧
    (iu = false → db.insert_payment_intent
      (create_intent_draft pid merchant_id connector money request ext) s1 =
        (.ok pd.payment_intent, s2))

/-- Request used by the C5 witness. -/
def resumeReq : PaymentsRequest :=
  { payment_id := some (.PaymentIntentId "pay_w5")
    amount := some 100
    currency := some "EUR"
    confirm := some true
    payment_method_data := some (.Card sampleCard) }

/-- External inputs used by the C5 witness. -/
def resumeExt : ExternalInputs :=
  ⟨none, some .Card, none, none, none, "txn_w5", 5, "secret_w5"⟩

/-- Preloaded connector-response row sharing the transaction id used by the C6
witness run. -/
def dupRespRow : ConnectorResponse :=
  ⟨"pay_other", "m_other", "txn_w6", none, none, "stripe", none, none, none⟩

/-- Store holding only the conflicting connector-response row, for the C6
witness. -/
def dupStore : Store := ⟨[], [], [dupRespRow]⟩

/-- Request used by the C6 witness. -/
def dupReq : PaymentsRequest := { amount := some 7, currency := some "GBP" }

/-- External inputs used by the C6 witness; the generated transaction id
collides with the preloaded response row. -/
def dupExt : ExternalInputs :=
  ⟨none, none, none, none, none, "txn_w6", 6, "secret_w6"⟩

/-- Request used by the C7 witness. -/
def errReq : PaymentsRequest := { amount := some 1, currency := some "USD" }

/-- External inputs used by the C7 witness. -/
def errExt : ExternalInputs :=
  ⟨none, none, none, none, none, "txn_w7", 7, "secret_w7"⟩

/-- The attempt row used by the C7 oracle stores. -/
def errAttempt : PaymentAttempt :=
  create_attempt_draft "pay_w7" "m7" "stripe" (1, .USD) errReq errExt

/-- The intent row used by the C7 oracle stores. -/
def errIntent : PaymentIntent :=
  create_intent_draft "pay_w7" "m7" "stripe" (1, .USD) errReq errExt

/-- The connector-response row used by the C7 oracle stores. -/
def errResp : ConnectorResponse := make_connector_response errAttempt

/-- The frame contract of the conditional intent update performed by
`update_trackers`: every field other than the status is unchanged, the
customer id written is the intent's own pre-existing customer id, and the
status is exactly the computed transition, or unchanged when no transition
applies. -/
def IntentFramePreserved (old_intent new_intent : PaymentIntent)
    (pmd : Option PaymentMethod) (confirm : Option Bool) : Prop :=
  new_intent.payment_id = old_intent.payment_id ∧
  new_intent.merchant_id = old_intent.merchant_id ∧
  new_intent.amount = old_intent.amount ∧
  new_intent.currency = old_intent.currency ∧
  new_intent.connector_id = old_intent.connector_id ∧
  new_intent.description = old_intent.description ∧
  new_intent.created_at = old_intent.created_at ∧
  new_intent.modified_at = old_intent.modified_at ∧
  new_intent.last_synced = old_intent.last_synced ∧
  new_intent.client_secret = old_intent.client_secret ∧
  new_intent.setup_future_usage = old_intent.setup_future_usage ∧
  new_intent.off_session = old_intent.off_session ∧
  new_intent.statement_descriptor_name = old_intent.statement_descriptor_name ∧
  new_intent.statement_descriptor_suffix = old_intent.statement_descriptor_suffix ∧
  new_intent.return_url = old_intent.return_url ∧
  new_intent.shipping_address_id = old_intent.shipping_address_id ∧
  new_intent.billing_address_id = old_intent.billing_address_id ∧
  new_intent.customer_id = old_intent.customer_id ∧
  new_intent.status =
    (payment_create_update_status old_intent.status pmd confirm).getD old_intent.status

/-- Request used by the C9 witness. -/
def frameReq : PaymentsRequest :=
  { amount := some 9, currency := some "USD", confirm := some true,
    payment_method_data := some (.Card sampleCard) }

/-- External inputs used by the C9 witness. -/
def frameExt : ExternalInputs :=
  ⟨none, some .Card, none, none, none, "txn_w9", 9, "secret_w9"⟩

/-- The attempt row used by the C9 witness. -/
def frameAttempt : PaymentAttempt :=
  create_attempt_draft "pay_w9" "m9" "stripe" (9, .USD) frameReq frameExt

/-- The intent row used by the C9 witness. -/
def frameIntent : PaymentIntent :=
  create_intent_draft "pay_w9" "m9" "stripe" (9, .USD) frameReq frameExt

/-- The connector-response row used by the C9 witness. -/
def frameResp : ConnectorResponse := make_connector_response frameAttempt

/-- The aggregate used by the C9 witness. -/
def framePD : PaymentData :=
  ⟨frameIntent, frameAttempt, .USD, 9, none, none, none, ⟨none, none⟩,
    some true, frameReq.payment_method_data, [], none, frameResp⟩

/-- Store holding the C9 witness rows. -/
def frameStore : Store := ⟨[frameAttempt], [frameIntent], [frameResp]⟩

/-- Request used by the C8 counterexample: `amount_to_capture` exceeds
`amount`, but the request also carries a merchant id different from the
authenticated merchant's. -/
def capMismatchReq : PaymentsRequest :=
  { merchant_id := some "someone_else", amount := some 6540,
    amount_to_capture := some 7000 }

/-- Request used by the C8 witness for the failing branch: capture amount
exceeds the amount on an otherwise well-formed request. -/
def capBadReq : PaymentsRequest :=
  { amount := some 6540, amount_to_capture := some 7000 }

/-- Request used by the C8 witness for the accepting branch. -/
def capOkReq : PaymentsRequest :=
  { amount := some 1000, amount_to_capture := some 500 }

/-- Request used by the C1 replay run. -/
def replayReq : PaymentsRequest :=
  { payment_id := some (.PaymentIntentId "pay_w1"), amount := some 6540,
    currency := some "USD", confirm := some true,
    payment_method_data := some (.Card sampleCard),
    payment_method := some .Card }

/-- External inputs of the first C1 run. -/
def replayExt1 : ExternalInputs :=
  ⟨none, some .Card, none, none, none, "txn_w1a", 11, "secret_w1a"⟩

/-- External inputs of the replayed C1 run, with a fresh transaction id. -/
def replayExt2 : ExternalInputs :=
  ⟨none, some .Card, none, none, none, "txn_w1b", 12, "secret_w1b"⟩

/-- Store part of the interleaving invariant, for the shared key
(pid, mid): every attempt and intent row carries the key, each of the three
tables holds at most one row, and every response row was built by
`make_connector_response` from the store's unique attempt row. -/
def StoreInv (pid mid : String) (s : Store) : Prop :=
  (∀ a ∈ s.attempts, a.payment_id = pid ∧ a.merchant_id = mid) ∧
  (∀ i ∈ s.intents, i.payment_id = pid ∧ i.merchant_id = mid) ∧
  s.attempts.length ≤ 1 ∧ s.intents.length ≤ 1 ∧ s.responses.length ≤ 1 ∧
  (∀ r ∈ s.responses, ∃ a, s.attempts = [a] ∧ r = make_connector_response a)

/-- Per-request part of the interleaving invariant: what each program counter
implies about the store and about the attempt row the request holds. -/
def ProcInv (p : ProcState) (s : Store) : Prop :=
  match p.pc with
  | .insA => True
  | .findA => s.attempts.length = 1
  | .insI => ∃ a, p.attempt = some a ∧ s.attempts = [a]
  | .findI => (∃ a, p.attempt = some a ∧ s.attempts = [a]) ∧ s.intents.length = 1
  | .insC => (∃ a, p.attempt = some a ∧ s.attempts = [a]) ∧ s.intents.length = 1
  | .doneOk => (∃ a, p.attempt = some a ∧ s.attempts = [a]) ∧
      s.intents.length = 1 ∧ s.responses.length = 1
  | .doneErr => s.attempts.length = 1 ∧ s.intents.length = 1 ∧ s.responses.length = 1

/-- The full interleaving invariant for two concurrent requests. -/
def Inv (pid mid : String) (g : Global) : Prop :=
  StoreInv pid mid g.store ∧ ProcInv g.procA g.store ∧ ProcInv g.procB g.store

/-- Request used by the C2 witness. -/
def concReq : PaymentsRequest :=
  { amount := some 2, currency := some "USD", confirm := some true,
    payment_method_data := some (.Card sampleCard) }

/-- External inputs of the first C2 request. -/
def concExt1 : ExternalInputs :=
  ⟨none, some .Card, none, none, none, "txn_w2a", 21, "secret_w2a"⟩

/-- External inputs of the second C2 request, with its own fresh transaction
id. -/
def concExt2 : ExternalInputs :=
  ⟨none, some .Card, none, none, none, "txn_w2b", 22, "secret_w2b"⟩

/-- Schedule used by the C2 witness: the first request runs to completion,
then the second resumes through both unique violations and fails on the
duplicate connector response. -/
def concSched : List Bool := [true, true, true, false, false, false, false, false]

/-- Final global state of the C2 witness interleaving. -/
def concFinal : Global :=
  runSched (create_attempt_draft "pay_w2" "m2" "stripe" (2, .USD) concReq concExt1)
    (create_intent_draft "pay_w2" "m2" "stripe" (2, .USD) concReq concExt1)
    (create_attempt_draft "pay_w2" "m2" "stripe" (2, .USD) concReq concExt2)
    (create_intent_draft "pay_w2" "m2" "stripe" (2, .USD) concReq concExt2)
    concSched ⟨initProc, initProc, emptyStore⟩

/-- C3: for every intent, the status transition computed by `update_trackers`
from the current status, the presence of payment-method data, and the confirm
flag is exactly: from RequiresPaymentMethod, Some(RequiresConfirmation) when
payment-method data is present and None otherwise; from RequiresConfirmation,
Some(Processing) when confirm is true and None otherwise; from every other
status, None. -/
theorem payment_create_update_status_correct :
    ∀ (current : IntentStatus) (pmd : Option PaymentMethod) (confirm : Option Bool),
      payment_create_update_status current pmd confirm =
        claimed_update_status current pmd confirm := by
  intro current pmd confirm
  cases current <;> cases pmd <;> rcases confirm with _ | (_ | _) <;> rfl

/-- C4 counterexample: with payment-method data present and confirm true, a
single application of the update-rule transition to a freshly created intent
in RequiresPaymentMethod yields RequiresConfirmation, while the creation-time
rule `payment_intent_status_fsm` assigns Processing directly, so the two
disagree at this input. -/
theorem create_and_update_rule_disagree_once :
    payment_intent_status_fsm (some (.Card sampleCard)) (some true) = .Processing ∧
    payment_create_update_status .RequiresPaymentMethod (some (.Card sampleCard))
      (some true) = some .RequiresConfirmation ∧
    (payment_create_update_status .RequiresPaymentMethod (some (.Card sampleCard))
        (some true)).getD .RequiresPaymentMethod ≠
      payment_intent_status_fsm (some (.Card sampleCard)) (some true) := by
  decide

/-- C4 (amended): applying the update-rule status transition repeatedly, until
no further transition applies, to a freshly created intent in
RequiresPaymentMethod yields exactly the status the creation-time rule
`payment_intent_status_fsm` assigns directly, for every combination of
payment-method-data presence and confirm flag; the second conjunct certifies
that the resulting status admits no further transition. -/
theorem update_rule_fixpoint_matches_creation :
    ∀ (pmd : Option PaymentMethod) (confirm : Option Bool),
      apply_update_to_fixpoint .RequiresPaymentMethod pmd confirm =
        payment_intent_status_fsm pmd confirm ∧
      payment_create_update_status
        (apply_update_to_fixpoint .RequiresPaymentMethod pmd confirm) pmd confirm =
          none := by
  intro pmd confirm
  cases pmd <;> rcases confirm with _ | (_ | _) <;> exact ⟨rfl, rfl⟩

/-- C10: a successful `get_trackers` always returns Some customer-details
value echoing the five request fields verbatim, for every request, including
one where all five fields are absent; it never returns None for the
customer-details output. -/
theorem get_trackers_customer_details :
    ∀ {σ : Type} (db : Db σ) (payment_id : PaymentIdType)
      (merchant_id connector : String) (request : PaymentsRequest)
      (ext : ExternalInputs) (s s' : σ) (op : NextOperation) (pd : PaymentData)
      (cd : Option CustomerDetails),
      get_trackers db payment_id merchant_id connector request ext s =
        (.ok (op, pd, cd), s') →
      cd = some ⟨request.customer_id, request.name, request.email,
        request.phone, request.phone_country_code⟩ := by
  intro σ db payment_id merchant_id connector request ext s s' op pd cd h
  unfold get_trackers at h
  repeat' split at h
  all_goals simp_all

/-- Witness for C10: a concrete successful run of `get_trackers` on the empty
store returns Some customer details echoing the absent request fields. -/
theorem get_trackers_customer_details_witness :
    ∃ op pd cd s',
      get_trackers storeDb (.PaymentIntentId "pay_w10") "m1" "stripe" custReq
        custExt emptyStore = (.ok (op, pd, cd), s') ∧
      cd = some ⟨custReq.customer_id, custReq.name, custReq.email,
        custReq.phone, custReq.phone_country_code⟩ :=
  ⟨_, _, _, _, rfl,
    get_trackers_customer_details storeDb (.PaymentIntentId "pay_w10") "m1"
      "stripe" custReq custExt emptyStore _ _ _ _ rfl⟩

/-- A successful attempt step marks the run as an update exactly when the
insert reported a unique violation and the follow-up fetch succeeded. -/
theorem attempt_step_resume_char {σ : Type} (db : Db σ) (d : PaymentAttempt)
    (pid mid : String) (s s1 : σ) (a : PaymentAttempt) (u : Bool)
    (h : attempt_step db d pid mid s = (.ok (a, u), s1)) :
    (u = true → ∃ sm,
      db.insert_payment_attempt d s = (.error (.databaseError .UniqueViolation), sm) ∧
      db.find_payment_attempt_by_payment_id_merchant_id pid mid sm = (.ok a, s1)) ∧
    (u = false → db.insert_payment_attempt d s = (.ok a, s1)) := by
  unfold attempt_step at h
  split at h
  · rename_i a0 s0 heq
    simp only [Prod.mk.injEq, Except.ok.injEq] at h
    obtain ⟨⟨ha, hu⟩, hs⟩ := h
    subst ha; subst hs
    refine ⟨fun ht => absurd (hu.trans ht) (by simp), fun _ => heq⟩
  · rename_i err s0 heq
    split at h
    · split at h
      · rename_i a0 s2 heq2
        simp only [Prod.mk.injEq, Except.ok.injEq] at h
        obtain ⟨⟨ha, hu⟩, hs⟩ := h
        subst ha; subst hs
        refine ⟨fun _ => ⟨s0, heq, heq2⟩, fun hf => absurd (hu.trans hf) (by simp)⟩
      · simp at h
    · simp at h

/-- A successful intent step marks the run as an update exactly when the
insert reported a unique violation and the follow-up fetch succeeded. -/
theorem intent_step_resume_char {σ : Type} (db : Db σ) (d : PaymentIntent)
    (pid mid : String) (s s1 : σ) (i : PaymentIntent) (u : Bool)
    (h : intent_step db d pid mid s = (.ok (i, u), s1)) :
    (u = true → ∃ sm,
      db.insert_payment_intent d s = (.error (.databaseError .UniqueViolation), sm) ∧
      db.find_payment_intent_by_payment_id_merchant_id pid mid sm = (.ok i, s1)) ∧
    (u = false → db.insert_payment_intent d s = (.ok i, s1)) := by
  unfold intent_step at h
  split at h
  · rename_i i0 s0 heq
    simp only [Prod.mk.injEq, Except.ok.injEq] at h
    obtain ⟨⟨hi, hu⟩, hs⟩ := h
    subst hi; subst hs
    refine ⟨fun ht => absurd (hu.trans ht) (by simp), fun _ => heq⟩
  · rename_i err s0 heq
    split at h
    · split at h
      · rename_i i0 s2 heq2
        simp only [Prod.mk.injEq, Except.ok.injEq] at h
        obtain ⟨⟨hi, hu⟩, hs⟩ := h
        subst hi; subst hs
        refine ⟨fun _ => ⟨s0, heq, heq2⟩, fun hf => absurd (hu.trans hf) (by simp)⟩
      · simp at h
    · simp at h

/-- C5: a successful `get_trackers` returns a next operation different from
self, selected from the fetched intent's current status, if and only if at
least one of the payment-attempt or payment-intent inserts resolved via the
unique-violation-then-fetch resume path; when neither did, the returned next
operation is the create operation itself. -/
theorem get_trackers_resume_routing :
    ∀ {σ : Type} (db : Db σ) (payment_id : PaymentIdType)
      (merchant_id connector : String) (request : PaymentsRequest)
      (ext : ExternalInputs) (s s' : σ) (op : NextOperation) (pd : PaymentData)
      (cd : Option CustomerDetails),
      get_trackers db payment_id merchant_id connector request ext s =
        (.ok (op, pd, cd), s') →
      GetTrackersResumeSpec db payment_id merchant_id connector request ext s op pd := by
  intro σ db payment_id merchant_id connector request ext s s' op pd cd h
  unfold get_trackers at h
  split at h
  · simp at h
  rename_i money hV
  split at h
  · simp at h
  rename_i pid hP
  split at h
  · simp at h
  rename_i pa au s1 hA
  split at h
  · simp at h
  rename_i pi iu s2 hI
  split at h
  · simp at h
  rename_i cr s3 hC
  simp only [Prod.mk.injEq, Except.ok.injEq] at h
  obtain ⟨⟨hop, hpd, hcd⟩, hs⟩ := h
  subst hpd
  have hac := attempt_step_resume_char db _ pid merchant_id s s1 pa au hA
  have hic := intent_step_resume_char db _ pid merchant_id s1 s2 pi iu hI
  refine ⟨money, pid, au, iu, s1, s2, hV, hP, hA, hI, hop.symm, ?_, ?_, hac.1, hac.2, hic.1, hic.2⟩
  · intro ht
    rw [← hop, ht]
    exact ⟨rfl, by simp [if_not_create_change_operation]⟩
  · intro hf
    rw [← hop, hf]
    rfl

/-- Witness for C5: a concrete successful run of `get_trackers` on the empty
store satisfies the resume-routing contract. -/
theorem get_trackers_resume_routing_witness :
    ∃ op pd cd s',
      get_trackers storeDb (.PaymentIntentId "pay_w5") "m5" "stripe" resumeReq
        resumeExt emptyStore = (.ok (op, pd, cd), s') ∧
      GetTrackersResumeSpec storeDb (.PaymentIntentId "pay_w5") "m5" "stripe"
        resumeReq resumeExt emptyStore op pd :=
  ⟨_, _, _, _, rfl,
    get_trackers_resume_routing storeDb (.PaymentIntentId "pay_w5") "m5"
      "stripe" resumeReq resumeExt emptyStore _ _ _ _ rfl⟩

/-- C6: in `get_trackers`, a unique-constraint violation on the
connector-response insert always fails the whole operation with
InternalServerError carrying the message "Duplicate connector response in the
database"; it is never converted into a fetch/resume path. -/
theorem connector_unique_violation_fatal :
    ∀ {σ : Type} (db : Db σ) (payment_id : PaymentIdType)
      (merchant_id connector : String) (request : PaymentsRequest)
      (ext : ExternalInputs) (s : σ) (money : Int × Currency) (pid : String)
      (a : PaymentAttempt) (au : Bool) (s1 : σ) (pi : PaymentIntent) (iu : Bool)
      (s2 s3 : σ),
      payments_create_request_validation request = .ok money →
      payment_id.get_payment_intent_id = some pid →
      attempt_step db (create_attempt_draft pid merchant_id connector money request ext)
        pid merchant_id s = (.ok (a, au), s1) →
      intent_step db (create_intent_draft pid merchant_id connector money request ext)
        pid merchant_id s1 = (.ok (pi, iu), s2) →
      db.insert_connector_response (make_connector_response a) s2 =
        (.error (.databaseError .UniqueViolation), s3) →
      get_trackers db payment_id merchant_id connector request ext s =
        (.error ⟨.InternalServerError,
          some "Duplicate connector response in the database"⟩, s3) := by
  intro σ db payment_id merchant_id connector request ext s money pid a au s1 pi iu s2 s3
  intro hV hP hA hI hC
  unfold get_trackers connector_step
  simp only [hV, hP, hA, hI, hC]

/-- Witness for C6: a concrete run against a store already holding a response
row with the same transaction id fails with the duplicate-connector-response
internal error. -/
theorem connector_unique_violation_fatal_witness :
    ∃ s3, get_trackers storeDb (.PaymentIntentId "pay_w6") "m6" "stripe" dupReq
      dupExt dupStore =
      (.error ⟨.InternalServerError,
        some "Duplicate connector response in the database"⟩, s3) :=
  ⟨_, connector_unique_violation_fatal storeDb (.PaymentIntentId "pay_w6") "m6"
    "stripe" dupReq dupExt dupStore (7, .GBP) "pay_w6" _ false _ _ false _ _
    rfl rfl rfl rfl rfl⟩

/-- C7: in `get_trackers`, whenever an attempt or intent insert hits a unique
violation and the follow-up fetch by (payment_id, merchant_id) reports
not-found, the operation fails with PaymentNotFound; whenever the insert fails
with any error other than a unique violation, the operation fails with
InternalServerError. -/
theorem get_trackers_error_paths :
    ∀ {σ : Type} (db : Db σ) (payment_id : PaymentIdType)
      (merchant_id connector : String) (request : PaymentsRequest)
      (ext : ExternalInputs) (s : σ) (money : Int × Currency) (pid : String),
      payments_create_request_validation request = .ok money →
      payment_id.get_payment_intent_id = some pid →
      (∀ sm s2,
        db.insert_payment_attempt
          (create_attempt_draft pid merchant_id connector money request ext) s =
            (.error (.databaseError .UniqueViolation), sm) →
        db.find_payment_attempt_by_payment_id_merchant_id pid merchant_id sm =
          (.error (.databaseError .NotFound), s2) →
        get_trackers db payment_id merchant_id connector request ext s =
          (.error ⟨.PaymentNotFound, none⟩, s2)) ∧
      (∀ e sm,
        db.insert_payment_attempt
          (create_attempt_draft pid merchant_id connector money request ext) s =
            (.error e, sm) →
        e ≠ .databaseError .UniqueViolation →
        get_trackers db payment_id merchant_id connector request ext s =
          (.error ⟨.InternalServerError, none⟩, sm)) ∧
      (∀ a au s1 sm s2,
        attempt_step db (create_attempt_draft pid merchant_id connector money request ext)
          pid merchant_id s = (.ok (a, au), s1) →
        db.insert_payment_intent
          (create_intent_draft pid merchant_id connector money request ext) s1 =
            (.error (.databaseError .UniqueViolation), sm) →
        db.find_payment_intent_by_payment_id_merchant_id pid merchant_id sm =
          (.error (.databaseError .NotFound), s2) →
        get_trackers db payment_id merchant_id connector request ext s =
          (.error ⟨.PaymentNotFound, none⟩, s2)) ∧
      (∀ a au s1 e sm,
        attempt_step db (create_attempt_draft pid merchant_id connector money request ext)
          pid merchant_id s = (.ok (a, au), s1) →
        db.insert_payment_intent
          (create_intent_draft pid merchant_id connector money request ext) s1 =
            (.error e, sm) →
        e ≠ .databaseError .UniqueViolation →
        get_trackers db payment_id merchant_id connector request ext s =
          (.error ⟨.InternalServerError, none⟩, sm)) := by
  intro σ db payment_id merchant_id connector request ext s money pid hV hP
  refine ⟨?_, ?_, ?_, ?_⟩
  · intro sm s2 hins hfind
    unfold get_trackers attempt_step
    simp only [hV, hP, hins, hfind, to_not_found_response]
  · intro e sm hins hne
    unfold get_trackers attempt_step
    rcases e with de | _
    · cases de
      · exact absurd rfl hne
      · simp only [hV, hP, hins]
      · simp only [hV, hP, hins]
    · simp only [hV, hP, hins]
  · intro a au s1 sm s2 hstep hins hfind
    unfold get_trackers intent_step
    simp only [hV, hP, hstep, hins, hfind, to_not_found_response]
  · intro a au s1 e sm hstep hins hne
    unfold get_trackers intent_step
    rcases e with de | _
    · cases de
      · exact absurd rfl hne
      · simp only [hV, hP, hstep, hins]
      · simp only [hV, hP, hstep, hins]
    · simp only [hV, hP, hstep, hins]

/-- Witness for C7: concrete oracle stores exercising each of the four error
paths produce the stated failures. -/
theorem get_trackers_error_paths_witness :
    get_trackers (oracleDb (.error (.databaseError .UniqueViolation))
        (.error (.databaseError .NotFound)) (.ok errIntent) (.ok errIntent)
        (.ok errResp)) (.PaymentIntentId "pay_w7") "m7" "stripe" errReq errExt () =
      (.error ⟨.PaymentNotFound, none⟩, ()) ∧
    get_trackers (oracleDb (.error .other) (.ok errAttempt) (.ok errIntent)
        (.ok errIntent) (.ok errResp)) (.PaymentIntentId "pay_w7") "m7" "stripe"
        errReq errExt () =
      (.error ⟨.InternalServerError, none⟩, ()) ∧
    get_trackers (oracleDb (.ok errAttempt) (.ok errAttempt)
        (.error (.databaseError .UniqueViolation)) (.error (.databaseError .NotFound))
        (.ok errResp)) (.PaymentIntentId "pay_w7") "m7" "stripe" errReq errExt () =
      (.error ⟨.PaymentNotFound, none⟩, ()) ∧
    get_trackers (oracleDb (.ok errAttempt) (.ok errAttempt)
        (.error (.databaseError .Others)) (.ok errIntent) (.ok errResp))
        (.PaymentIntentId "pay_w7") "m7" "stripe" errReq errExt () =
      (.error ⟨.InternalServerError, none⟩, ()) :=
  ⟨(get_trackers_error_paths (oracleDb (.error (.databaseError .UniqueViolation))
      (.error (.databaseError .NotFound)) (.ok errIntent) (.ok errIntent)
      (.ok errResp)) (.PaymentIntentId "pay_w7") "m7" "stripe" errReq errExt ()
      (1, .USD) "pay_w7" rfl rfl).1 () () rfl rfl,
   (get_trackers_error_paths (oracleDb (.error .other) (.ok errAttempt)
      (.ok errIntent) (.ok errIntent) (.ok errResp)) (.PaymentIntentId "pay_w7")
      "m7" "stripe" errReq errExt () (1, .USD) "pay_w7" rfl rfl).2.1 .other ()
      rfl (by decide),
   (get_trackers_error_paths (oracleDb (.ok errAttempt) (.ok errAttempt)
      (.error (.databaseError .UniqueViolation)) (.error (.databaseError .NotFound))
      (.ok errResp)) (.PaymentIntentId "pay_w7") "m7" "stripe" errReq errExt ()
      (1, .USD) "pay_w7" rfl rfl).2.2.1 errAttempt false () () () rfl rfl rfl,
   (get_trackers_error_paths (oracleDb (.ok errAttempt) (.ok errAttempt)
      (.error (.databaseError .Others)) (.ok errIntent) (.ok errResp))
      (.PaymentIntentId "pay_w7") "m7" "stripe" errReq errExt () (1, .USD)
      "pay_w7" rfl rfl).2.2.2 errAttempt false () (.databaseError .Others) ()
      rfl rfl (by decide)⟩

/-- C9: `update_trackers` persists the intent through a conditional update
carrying only the status, return-url, customer-id, and shipping/billing
address-id fields, of which only the status actually changes here (return-url
and address ids are carried as None, and the customer id written is the
intent's own pre-existing customer id); every other field of the stored
PaymentIntent is left unchanged. -/
theorem update_trackers_frame :
    ∀ (pd : PaymentData) (s : Store) (op : NextOperation) (pd2 : PaymentData)
      (s2 : Store),
      update_trackers storeDb pd s = (.ok (op, pd2), s2) →
      IntentFramePreserved pd.payment_intent pd2.payment_intent
        pd.payment_method_data pd.confirm := by
  intro pd s op pd2 s2 h
  unfold update_trackers at h
  simp only [storeDb] at h
  split at h
  · simp at h
  · rename_i payment_intent s1 heq
    split at heq
    · simp only [Prod.mk.injEq, Except.ok.injEq] at heq
      obtain ⟨hpi, hs1⟩ := heq
      subst hpi
      simp only [Prod.mk.injEq, Except.ok.injEq] at h
      obtain ⟨⟨hop, hpd⟩, hs⟩ := h
      subst hpd
      unfold IntentFramePreserved apply_payment_intent_update
      cases hc : pd.payment_intent.customer_id <;>
        simp [hc, Option.orElse]
    · simp at heq

/-- Witness for C9: a concrete successful `update_trackers` run leaves every
field but the status of the stored intent unchanged. -/
theorem update_trackers_frame_witness :
    ∃ op pd2 s2,
      update_trackers storeDb framePD frameStore = (.ok (op, pd2), s2) ∧
      IntentFramePreserved framePD.payment_intent pd2.payment_intent
        framePD.payment_method_data framePD.confirm :=
  ⟨_, _, _, rfl, update_trackers_frame framePD frameStore _ _ _ rfl⟩

/-- C8 counterexample: a request with `amount_to_capture = 7000 > amount =
6540` whose merchant id does not match the authenticated merchant fails with
MerchantAccountNotFound, not with the InvalidDataFormat error for
`amount_to_capture`, so the claim does not hold for every such request. -/
theorem validate_request_capture_claim_false :
    capMismatchReq.amount = some 6540 ∧
    capMismatchReq.amount_to_capture = some 7000 ∧ (6540 : Int) < 7000 ∧
    validate_request capMismatchReq ⟨"m8"⟩ "pay_w8" ≠
      .error ⟨.InvalidDataFormat "amount_to_capture"
        "amount_to_capture lesser than amount", none⟩ ∧
    validate_request capMismatchReq ⟨"m8"⟩ "pay_w8" =
      .error ⟨.MerchantAccountNotFound, none⟩ := by
  decide

/-- C8 (amended): for every request that passes the earlier validation steps
(its payment id, when present, is a payment-intent id, and its merchant id,
when present, matches the authenticated merchant), when both amount and
amount_to_capture are present and amount_to_capture exceeds amount,
`validate_request` fails with the InvalidDataFormat error for field
amount_to_capture (and, having no store access, performs no store write);
and for every request `validate_request` accepts, amount_to_capture when
present is at most amount. -/
theorem validate_request_capture_amount :
    ∀ (request : PaymentsRequest) (merchant_account : MerchantAccount)
      (fresh_id : String),
      ((request.payment_id = none ∨
          ∃ pid, request.payment_id = some (.PaymentIntentId pid)) →
        validate_merchant_id merchant_account.merchant_id request.merchant_id = true →
        ∀ a c, request.amount = some a → request.amount_to_capture = some c →
          a < c →
          validate_request request merchant_account fresh_id =
            .error ⟨.InvalidDataFormat "amount_to_capture"
              "amount_to_capture lesser than amount", none⟩) ∧
      (∀ res, validate_request request merchant_account fresh_id = .ok res →
        ∀ a c, request.amount = some a → request.amount_to_capture = some c →
          c ≤ a) := by
  intro request merchant_account fresh_id
  constructor
  · intro hpid hm a c ha hc hlt
    have hres : resolve_given_payment_id request.payment_id = .ok
        (request.payment_id.map fun idt =>
          match idt with
          | .PaymentIntentId pid => pid
          | .ConnectorTransactionId pid => pid
          | .PaymentAttemptId pid => pid) := by
      rcases hpid with h0 | ⟨pid, h0⟩ <;>
        simp [h0, resolve_given_payment_id, PaymentIdType.get_payment_intent_id]
    unfold validate_request
    rw [hres]
    simp only [hm, if_true, ha, get_required_value]
    have hcap : validate_request_amount_and_amount_to_capture (some a)
        request.amount_to_capture = false := by
      simp [hc, validate_request_amount_and_amount_to_capture, not_le.mpr hlt]
    simp [hcap]
  · intro res h a c ha hc
    unfold validate_request at h
    split at h
    · simp at h
    · split at h
      · split at h
        · simp at h
        · rename_i amount0 heqa
          rw [ha] at heqa
          simp only [get_required_value, Except.ok.injEq] at heqa
          subst heqa
          split at h
          · rename_i hcond
            rw [hc] at hcond
            simpa [validate_request_amount_and_amount_to_capture] using hcond
          · simp at h
      · simp at h

/-- Witness for C8 (amended): the oversized capture amount is rejected with
the InvalidDataFormat error, and an accepted request has capture amount at
most the amount. -/
theorem validate_request_capture_amount_witness :
    validate_request capBadReq ⟨"m8"⟩ "pay_w8b" =
      .error ⟨.InvalidDataFormat "amount_to_capture"
        "amount_to_capture lesser than amount", none⟩ ∧
    (500 : Int) ≤ 1000 :=
  ⟨(validate_request_capture_amount capBadReq ⟨"m8"⟩ "pay_w8b").1 (Or.inl rfl)
      rfl 6540 7000 rfl rfl (by decide),
    (validate_request_capture_amount capOkReq ⟨"m8"⟩ "pay_w8c").2 _ rfl 1000 500
      rfl rfl⟩

/-- C1: replaying the identical create request with the same client-supplied
payment id after a first successful run does NOT return successfully: the
attempt and intent inserts resolve via the resume path without creating rows,
but the connector-response insert then reuses the fetched attempt's stored
transaction id, hits the unique index, and the whole operation fails with the
duplicate-connector-response internal error, leaving the store unchanged.
This contradicts the claimed successful resume routed to the confirm/process
path. -/
theorem replay_duplicate_connector_response :
    ∃ res1 s1,
      get_trackers storeDb (.PaymentIntentId "pay_w1") "m1w" "stripe" replayReq
        replayExt1 emptyStore = (.ok res1, s1) ∧
      get_trackers storeDb (.PaymentIntentId "pay_w1") "m1w" "stripe" replayReq
        replayExt2 s1 =
        (.error ⟨.InternalServerError,
          some "Duplicate connector response in the database"⟩, s1) := by
  refine ⟨_, _, rfl, ?_⟩
  rfl

/-- A list of length at most one with a satisfying element is a singleton. -/
theorem list_singleton_of_any {α : Type} (l : List α) (f : α → Bool)
    (hlen : l.length ≤ 1) (h : l.any f = true) : ∃ x, l = [x] := by
  cases l with
  | nil => simp at h
  | cons x t =>
    cases t with
    | nil => exact ⟨x, rfl⟩
    | cons y u => simp at hlen

/-- A list all of whose elements satisfy the predicate, on which `any` is
false, is empty. -/
theorem list_nil_of_any_eq_false {α : Type} (l : List α) (f : α → Bool)
    (hall : ∀ a ∈ l, f a = true) (h : l.any f = false) : l = [] := by
  cases l with
  | nil => rfl
  | cons x t =>
    have hx := hall x (by simp)
    simp [List.any_cons, hx] at h

/-- An attempt row carrying the key matches the key check. -/
theorem attemptKeyMatches_of_key (x y : String) (a : PaymentAttempt)
    (h1 : a.payment_id = x) (h2 : a.merchant_id = y) :
    attemptKeyMatches x y a = true := by
  simp [attemptKeyMatches, h1, h2]

/-- An intent row carrying the key matches the key check. -/
theorem intentKeyMatches_of_key (x y : String) (i : PaymentIntent)
    (h1 : i.payment_id = x) (h2 : i.merchant_id = y) :
    intentKeyMatches x y i = true := by
  simp [intentKeyMatches, h1, h2]

/-- A free key makes the attempt insert succeed and append the row. -/
theorem insert_attempt_ok_char (a : PaymentAttempt) (s : Store)
    (h : s.attempts.any (attemptKeyMatches a.payment_id a.merchant_id) = false) :
    storeDb.insert_payment_attempt a s =
      (.ok a, { s with attempts := s.attempts ++ [a] }) := by
  simp only [storeDb]
  rw [if_neg (by simp [h])]

/-- An occupied key makes the attempt insert report a unique violation and
leave the store unchanged. -/
theorem insert_attempt_uv_char (a : PaymentAttempt) (s : Store)
    (h : s.attempts.any (attemptKeyMatches a.payment_id a.merchant_id) = true) :
    storeDb.insert_payment_attempt a s =
      (.error (.databaseError .UniqueViolation), s) := by
  simp only [storeDb]
  rw [if_pos h]

/-- A free key makes the intent insert succeed and append the row. -/
theorem insert_intent_ok_char (i : PaymentIntent) (s : Store)
    (h : s.intents.any (intentKeyMatches i.payment_id i.merchant_id) = false) :
    storeDb.insert_payment_intent i s =
      (.ok i, { s with intents := s.intents ++ [i] }) := by
  simp only [storeDb]
  rw [if_neg (by simp [h])]

/-- An occupied key makes the intent insert report a unique violation and
leave the store unchanged. -/
theorem insert_intent_uv_char (i : PaymentIntent) (s : Store)
    (h : s.intents.any (intentKeyMatches i.payment_id i.merchant_id) = true) :
    storeDb.insert_payment_intent i s =
      (.error (.databaseError .UniqueViolation), s) := by
  simp only [storeDb]
  rw [if_pos h]

/-- A free transaction id makes the connector-response insert succeed and
append the row. -/
theorem insert_response_ok_char (c : ConnectorResponse) (s : Store)
    (h : s.responses.any (responseKeyMatches c.txn_id) = false) :
    storeDb.insert_connector_response c s =
      (.ok c, { s with responses := s.responses ++ [c] }) := by
  simp only [storeDb]
  rw [if_neg (by simp [h])]

/-- An occupied transaction id makes the connector-response insert report a
unique violation and leave the store unchanged. -/
theorem insert_response_uv_char (c : ConnectorResponse) (s : Store)
    (h : s.responses.any (responseKeyMatches c.txn_id) = true) :
    storeDb.insert_connector_response c s =
      (.error (.databaseError .UniqueViolation), s) := by
  simp only [storeDb]
  rw [if_pos h]

/-- Finding by key in a store whose attempt table is a keyed singleton
returns that row. -/
theorem find_attempt_singleton_char (x y : String) (a : PaymentAttempt)
    (s : Store) (hsing : s.attempts = [a]) (hk : attemptKeyMatches x y a = true) :
    storeDb.find_payment_attempt_by_payment_id_merchant_id x y s = (.ok a, s) := by
  simp [storeDb, hsing, List.find?, hk]

/-- Finding by key in a store whose intent table is a keyed singleton returns
that row. -/
theorem find_intent_singleton_char (x y : String) (i : PaymentIntent)
    (s : Store) (hsing : s.intents = [i]) (hk : intentKeyMatches x y i = true) :
    storeDb.find_payment_intent_by_payment_id_merchant_id x y s = (.ok i, s) := by
  simp [storeDb, hsing, List.find?, hk]

/-- Appending the first attempt row preserves the other request's
invariant. -/
theorem procInv_append_attempt (q : ProcState) (s : Store) (a : PaymentAttempt)
    (hnil : s.attempts = []) (hq : ProcInv q s) :
    ProcInv q ⟨s.attempts ++ [a], s.intents, s.responses⟩ := by
  cases hqc : q.pc
  case insA => simp [ProcInv, hqc]
  case findA => simp [ProcInv, hqc, hnil]
  case insI =>
    simp only [ProcInv, hqc] at hq
    obtain ⟨a2, _, h2⟩ := hq
    rw [hnil] at h2
    simp at h2
  case findI =>
    simp only [ProcInv, hqc] at hq
    obtain ⟨a2, _, h2⟩ := hq.1
    rw [hnil] at h2
    simp at h2
  case insC =>
    simp only [ProcInv, hqc] at hq
    obtain ⟨a2, _, h2⟩ := hq.1
    rw [hnil] at h2
    simp at h2
  case doneOk =>
    simp only [ProcInv, hqc] at hq
    obtain ⟨a2, _, h2⟩ := hq.1
    rw [hnil] at h2
    simp at h2
  case doneErr =>
    simp only [ProcInv, hqc] at hq
    rw [hnil] at hq
    simp at hq

/-- Appending the first intent row preserves the other request's
invariant. -/
theorem procInv_append_intent (q : ProcState) (s : Store) (i : PaymentIntent)
    (hnil : s.intents = []) (hq : ProcInv q s) :
    ProcInv q ⟨s.attempts, s.intents ++ [i], s.responses⟩ := by
  cases hqc : q.pc
  case insA => simp [ProcInv, hqc]
  case findA => simp only [ProcInv, hqc] at hq ⊢; exact hq
  case insI => simp only [ProcInv, hqc] at hq ⊢; exact hq
  case findI =>
    simp only [ProcInv, hqc] at hq ⊢
    exact ⟨hq.1, by simp [hnil]⟩
  case insC =>
    simp only [ProcInv, hqc] at hq ⊢
    exact ⟨hq.1, by simp [hnil]⟩
  case doneOk =>
    simp only [ProcInv, hqc] at hq ⊢
    exact ⟨hq.1, by simp [hnil], hq.2.2⟩
  case doneErr =>
    simp only [ProcInv, hqc] at hq ⊢
    exact ⟨hq.1, by simp [hnil], hq.2.2⟩

/-- Appending the first connector-response row preserves the other request's
invariant. -/
theorem procInv_append_response (q : ProcState) (s : Store)
    (c : ConnectorResponse) (hnil : s.responses = []) (hq : ProcInv q s) :
    ProcInv q ⟨s.attempts, s.intents, s.responses ++ [c]⟩ := by
  cases hqc : q.pc
  case insA => simp [ProcInv, hqc]
  case findA => simp only [ProcInv, hqc] at hq ⊢; exact hq
  case insI => simp only [ProcInv, hqc] at hq ⊢; exact hq
  case findI => simp only [ProcInv, hqc] at hq ⊢; exact hq
  case insC => simp only [ProcInv, hqc] at hq ⊢; exact hq
  case doneOk =>
    simp only [ProcInv, hqc] at hq ⊢
    exact ⟨hq.1, hq.2.1, by simp [hnil]⟩
  case doneErr =>
    simp only [ProcInv, hqc] at hq ⊢
    exact ⟨hq.1, hq.2.1, by simp [hnil]⟩

/-- One machine step by either request, with drafts keyed by the shared
(pid, mid), preserves the store invariant, establishes the stepping request's
invariant, and preserves the other request's invariant. -/
theorem procStep_preserves (pid mid : String) (aD : PaymentAttempt)
    (iD : PaymentIntent) (ha1 : aD.payment_id = pid) (ha2 : aD.merchant_id = mid)
    (hi1 : iD.payment_id = pid) (hi2 : iD.merchant_id = mid)
    (p q : ProcState) (s : Store) (hs : StoreInv pid mid s) (hp : ProcInv p s)
    (hq : ProcInv q s) :
    StoreInv pid mid (procStep aD iD p s).2 ∧
    ProcInv (procStep aD iD p s).1 (procStep aD iD p s).2 ∧
    ProcInv q (procStep aD iD p s).2 := by
  obtain ⟨hsA, hsI, hlA, hlI, hlR, hsR⟩ := hs
  cases hpc : p.pc
  case insA =>
    cases hany : s.attempts.any (attemptKeyMatches aD.payment_id aD.merchant_id)
    case false =>
      have hnil : s.attempts = [] :=
        list_nil_of_any_eq_false _ _
          (fun x hx => attemptKeyMatches_of_key _ _ x
            ((hsA x hx).1.trans ha1.symm) ((hsA x hx).2.trans ha2.symm)) hany
      have hrnil : s.responses = [] := by
        cases hresp : s.responses with
        | nil => rfl
        | cons r t =>
          obtain ⟨a2, haeq, _⟩ := hsR r (by simp [hresp])
          rw [hnil] at haeq
          simp at haeq
      simp only [procStep, hpc, insert_attempt_ok_char aD s hany]
      refine ⟨⟨?_, hsI, ?_, hlI, hlR, ?_⟩, ?_, procInv_append_attempt q s aD hnil hq⟩
      · intro x hx
        rw [hnil] at hx
        simp at hx
        subst hx
        exact ⟨ha1, ha2⟩
      · simp [hnil]
      · intro r hr
        rw [hrnil] at hr
        simp at hr
      · simp only [ProcInv]
        exact ⟨aD, rfl, by simp [hnil]⟩
    case true =>
      obtain ⟨a1, hsing⟩ := list_singleton_of_any _ _ hlA hany
      simp only [procStep, hpc, insert_attempt_uv_char aD s hany]
      refine ⟨⟨hsA, hsI, hlA, hlI, hlR, hsR⟩, ?_, hq⟩
      simp only [ProcInv]
      simp [hsing]
  case findA =>
    have hlen : s.attempts.length = 1 := by simpa [ProcInv, hpc] using hp
    obtain ⟨a1, hsing⟩ := List.length_eq_one.mp hlen
    have hmem : a1 ∈ s.attempts := by simp [hsing]
    have hk : attemptKeyMatches aD.payment_id aD.merchant_id a1 = true :=
      attemptKeyMatches_of_key _ _ a1
        ((hsA a1 hmem).1.trans ha1.symm) ((hsA a1 hmem).2.trans ha2.symm)
    simp only [procStep, hpc,
      find_attempt_singleton_char aD.payment_id aD.merchant_id a1 s hsing hk]
    refine ⟨⟨hsA, hsI, hlA, hlI, hlR, hsR⟩, ?_, hq⟩
    simp only [ProcInv]
    exact ⟨a1, rfl, hsing⟩
  case insI =>
    have hpA : ∃ a, p.attempt = some a ∧ s.attempts = [a] := by
      simpa [ProcInv, hpc] using hp
    cases hany : s.intents.any (intentKeyMatches iD.payment_id iD.merchant_id)
    case false =>
      have hnil : s.intents = [] :=
        list_nil_of_any_eq_false _ _
          (fun x hx => intentKeyMatches_of_key _ _ x
            ((hsI x hx).1.trans hi1.symm) ((hsI x hx).2.trans hi2.symm)) hany
      simp only [procStep, hpc, insert_intent_ok_char iD s hany]
      refine ⟨⟨hsA, ?_, hlA, ?_, hlR, hsR⟩, ?_, procInv_append_intent q s iD hnil hq⟩
      · intro x hx
        rw [hnil] at hx
        simp at hx
        subst hx
        exact ⟨hi1, hi2⟩
      · simp [hnil]
      · simp only [ProcInv]
        exact ⟨hpA, by simp [hnil]⟩
    case true =>
      obtain ⟨i1, hsing⟩ := list_singleton_of_any _ _ hlI hany
      simp only [procStep, hpc, insert_intent_uv_char iD s hany]
      refine ⟨⟨hsA, hsI, hlA, hlI, hlR, hsR⟩, ?_, hq⟩
      simp only [ProcInv]
      exact ⟨hpA, by simp [hsing]⟩
  case findI =>
    have hpp : (∃ a, p.attempt = some a ∧ s.attempts = [a]) ∧ s.intents.length = 1 := by
      simpa [ProcInv, hpc] using hp
    obtain ⟨i1, hsing⟩ := List.length_eq_one.mp hpp.2
    have hmem : i1 ∈ s.intents := by simp [hsing]
    have hk : intentKeyMatches iD.payment_id iD.merchant_id i1 = true :=
      intentKeyMatches_of_key _ _ i1
        ((hsI i1 hmem).1.trans hi1.symm) ((hsI i1 hmem).2.trans hi2.symm)
    simp only [procStep, hpc,
      find_intent_singleton_char iD.payment_id iD.merchant_id i1 s hsing hk]
    refine ⟨⟨hsA, hsI, hlA, hlI, hlR, hsR⟩, ?_, hq⟩
    simp only [ProcInv]
    exact ⟨hpp.1, hpp.2⟩
  case insC =>
    have hpp : (∃ a, p.attempt = some a ∧ s.attempts = [a]) ∧ s.intents.length = 1 := by
      simpa [ProcInv, hpc] using hp
    obtain ⟨⟨a1, hatt, hsing⟩, hilen⟩ := hpp
    cases hany : s.responses.any (responseKeyMatches (make_connector_response a1).txn_id)
    case false =>
      have hrnil : s.responses = [] := by
        cases hresp : s.responses with
        | nil => rfl
        | cons r t =>
          obtain ⟨a2, haeq, hreq⟩ := hsR r (by simp [hresp])
          have h12 : a1 = a2 := by simpa using hsing.symm.trans haeq
          rw [hresp] at hany
          simp [hreq, ← h12, responseKeyMatches] at hany
      simp only [procStep, hpc, hatt,
        insert_response_ok_char (make_connector_response a1) s hany]
      refine ⟨⟨hsA, hsI, hlA, hlI, ?_, ?_⟩, ?_, procInv_append_response q s _ hrnil hq⟩
      · simp [hrnil]
      · intro r hr
        rw [hrnil] at hr
        simp at hr
        subst hr
        exact ⟨a1, hsing, rfl⟩
      · simp only [ProcInv]
        exact ⟨⟨a1, rfl, hsing⟩, hilen, by simp [hrnil]⟩
    case true =>
      obtain ⟨r1, hrsing⟩ := list_singleton_of_any _ _ hlR hany
      simp only [procStep, hpc, hatt,
        insert_response_uv_char (make_connector_response a1) s hany]
      refine ⟨⟨hsA, hsI, hlA, hlI, hlR, hsR⟩, ?_, hq⟩
      simp only [ProcInv]
      exact ⟨by simp [hsing], hilen, by simp [hrsing]⟩
  case doneOk =>
    simp only [procStep, hpc]
    exact ⟨⟨hsA, hsI, hlA, hlI, hlR, hsR⟩, hp, hq⟩
  case doneErr =>
    simp only [procStep, hpc]
    exact ⟨⟨hsA, hsI, hlA, hlI, hlR, hsR⟩, hp, hq⟩

/-- One scheduling choice preserves the full interleaving invariant. -/
theorem schedStep_preserves (pid mid : String) (aD1 : PaymentAttempt)
    (iD1 : PaymentIntent) (aD2 : PaymentAttempt) (iD2 : PaymentIntent)
    (h11 : aD1.payment_id = pid) (h12 : aD1.merchant_id = mid)
    (h13 : iD1.payment_id = pid) (h14 : iD1.merchant_id = mid)
    (h21 : aD2.payment_id = pid) (h22 : aD2.merchant_id = mid)
    (h23 : iD2.payment_id = pid) (h24 : iD2.merchant_id = mid)
    (g : Global) (c : Bool) (h : Inv pid mid g) :
    Inv pid mid (schedStep aD1 iD1 aD2 iD2 g c) := by
  obtain ⟨hs, hpA, hpB⟩ := h
  cases c
  case false =>
    have hstep := procStep_preserves pid mid aD2 iD2 h21 h22 h23 h24
      g.procB g.procA g.store hs hpB hpA
    simp only [schedStep, Bool.false_eq_true, if_false]
    exact ⟨hstep.1, hstep.2.2, hstep.2.1⟩
  case true =>
    have hstep := procStep_preserves pid mid aD1 iD1 h11 h12 h13 h14
      g.procA g.procB g.store hs hpA hpB
    simp only [schedStep, if_true]
    exact ⟨hstep.1, hstep.2.1, hstep.2.2⟩

/-- Any interleaving of the two requests preserves the invariant. -/
theorem runSched_inv (pid mid : String) (aD1 : PaymentAttempt)
    (iD1 : PaymentIntent) (aD2 : PaymentAttempt) (iD2 : PaymentIntent)
    (h11 : aD1.payment_id = pid) (h12 : aD1.merchant_id = mid)
    (h13 : iD1.payment_id = pid) (h14 : iD1.merchant_id = mid)
    (h21 : aD2.payment_id = pid) (h22 : aD2.merchant_id = mid)
    (h23 : iD2.payment_id = pid) (h24 : iD2.merchant_id = mid) :
    ∀ (sched : List Bool) (g : Global), Inv pid mid g →
      Inv pid mid (runSched aD1 iD1 aD2 iD2 sched g) := by
  intro sched
  induction sched with
  | nil => intro g h; simpa [runSched] using h
  | cons c rest ih =>
    intro g h
    simp only [runSched]
    exact ih _ (schedStep_preserves pid mid aD1 iD1 aD2 iD2 h11 h12 h13 h14
      h21 h22 h23 h24 g c h)

/-- C2: for any two executions of the same create request interleaved in any
order with the same client-supplied payment id and merchant id, once both
complete the store contains exactly one PaymentIntent row, exactly one
PaymentAttempt row, and exactly one ConnectorResponse row, all carrying that
key. -/
theorem concurrent_create_exactly_once :
    ∀ (pid mid connector : String) (money : Int × Currency)
      (request : PaymentsRequest) (ext1 ext2 : ExternalInputs)
      (sched : List Bool) (g : Global),
      runSched (create_attempt_draft pid mid connector money request ext1)
        (create_intent_draft pid mid connector money request ext1)
        (create_attempt_draft pid mid connector money request ext2)
        (create_intent_draft pid mid connector money request ext2)
        sched ⟨initProc, initProc, emptyStore⟩ = g →
      finished g.procA → finished g.procB →
      g.store.attempts.length = 1 ∧ g.store.intents.length = 1 ∧
      g.store.responses.length = 1 ∧
      (g.store.attempts.filter (attemptKeyMatches pid mid)).length = 1 ∧
      (g.store.intents.filter (intentKeyMatches pid mid)).length = 1 ∧
      (g.store.responses.filter
        (fun r => r.payment_id == pid && r.merchant_id == mid)).length = 1 := by
  intro pid mid connector money request ext1 ext2 sched g hrun hA hB
  have hinv0 : Inv pid mid ⟨initProc, initProc, emptyStore⟩ := by
    refine ⟨⟨?_, ?_, ?_, ?_, ?_, ?_⟩, ?_, ?_⟩ <;>
      simp [ProcInv, initProc, emptyStore]
  have hinv := runSched_inv pid mid
    (create_attempt_draft pid mid connector money request ext1)
    (create_intent_draft pid mid connector money request ext1)
    (create_attempt_draft pid mid connector money request ext2)
    (create_intent_draft pid mid connector money request ext2)
    rfl rfl rfl rfl rfl rfl rfl rfl
    sched ⟨initProc, initProc, emptyStore⟩ hinv0
  rw [hrun] at hinv
  obtain ⟨⟨hsA, hsI, hlA, hlI, hlR, hsR⟩, hpA, hpB⟩ := hinv
  have hlen : g.store.attempts.length = 1 ∧ g.store.intents.length = 1 ∧
      g.store.responses.length = 1 := by
    rcases hA with h | h
    · simp only [ProcInv, h] at hpA
      obtain ⟨⟨a, _, hsg⟩, h2, h3⟩ := hpA
      exact ⟨by simp [hsg], h2, h3⟩
    · simpa [ProcInv, h] using hpA
  refine ⟨hlen.1, hlen.2.1, hlen.2.2, ?_, ?_, ?_⟩
  · obtain ⟨a, hsg⟩ := List.length_eq_one.mp hlen.1
    have hmem : a ∈ g.store.attempts := by simp [hsg]
    have hk := attemptKeyMatches_of_key pid mid a (hsA a hmem).1 (hsA a hmem).2
    simp [hsg, List.filter_cons, hk]
  · obtain ⟨i, hsg⟩ := List.length_eq_one.mp hlen.2.1
    have hmem : i ∈ g.store.intents := by simp [hsg]
    have hk := intentKeyMatches_of_key pid mid i (hsI i hmem).1 (hsI i hmem).2
    simp [hsg, List.filter_cons, hk]
  · obtain ⟨r, hsg⟩ := List.length_eq_one.mp hlen.2.2
    obtain ⟨a, haeq, hreq⟩ := hsR r (by simp [hsg])
    have hka := hsA a (by simp [haeq])
    have hk : (r.payment_id == pid && r.merchant_id == mid) = true := by
      simp [hreq, make_connector_response, hka.1, hka.2]
    simp [hsg, List.filter_cons, hk]

/-- Witness for C2: after a concrete interleaving in which both requests
complete, each table holds exactly one row for the key. -/
theorem concurrent_create_exactly_once_witness :
    concFinal.store.attempts.length = 1 ∧ concFinal.store.intents.length = 1 ∧
    concFinal.store.responses.length = 1 ∧
    (concFinal.store.attempts.filter (attemptKeyMatches "pay_w2" "m2")).length = 1 ∧
    (concFinal.store.intents.filter (intentKeyMatches "pay_w2" "m2")).length = 1 ∧
    (concFinal.store.responses.filter
      (fun r => r.payment_id == "pay_w2" && r.merchant_id == "m2")).length = 1 :=
  concurrent_create_exactly_once "pay_w2" "m2" "stripe" (2, .USD) concReq
    concExt1 concExt2 concSched concFinal rfl (Or.inl rfl) (Or.inr rfl)

end Router
